import Mathlib

/-!
Shallow embedding of the plan selection / filtering / rendering engine of the
d2c-website repository, together with proofs of the spec's testable
properties.

Two source variants are embedded:
- the plan-card variant (src/unnamed/part_001): `getFilteredPlans`,
  `applyPlanVisibilityAndOrder`, the comparison overlay, and the
  `syncFormFieldToStorage` handler with its `isSyncing` guard;
- the results-page variant (src/dpr-results.js): `determineTopThreePlans`,
  `getTopPlansFromRecommendation`, and its `syncFormFieldToStorage`.

JavaScript storage values are either strings or null; `JSValue` models that.
A storage object (the parsed `dpr_local_data`) is modelled as a total
function from keys to `Option JSValue` (`none` = key absent).
-/

/-- A JavaScript value as stored in `dpr_local_data`: a string or `null`. -/
inductive JSValue where
  | str : String → JSValue
  | null : JSValue
deriving DecidableEq, Repr

/-- The parsed `dpr_local_data` object: key → value, `none` when absent. -/
def Store : Type := String → Option JSValue

namespace PlanCard

/-! Embedding of src/unnamed/part_001 (plan-card display script). -/

/-- `INSURANCE_REASON_SETS` (part_001 lines 27-31): reason key → eligible plans. -/
def INSURANCE_REASON_SETS : String → Option (List String)
  | "1" => some ["LINK 1", "LINK 2", "LINK 3", "LINK 4", "ZONE FUNDAMENTAL PLAN", "ZONE 4", "ZONE 5"]
  | "2" => some ["LINK 4", "ZONE 2", "ZONE 3", "ZONE FUNDAMENTAL PLAN"]
  | "0" => some ["LINK 2", "LINK 3", "LINK 4", "ZONE FUNDAMENTAL PLAN", "ZONE 5", "ZONE 6", "ZONE 7"]
  | _ => none

/-- `COVERAGE_TIER_SETS` (part_001 lines 33-36): tier key → eligible plans. -/
def COVERAGE_TIER_SETS : String → Option (List String)
  | "basic" => some ["LINK 1", "LINK 2", "LINK 3", "ZONE 2", "ZONE 3", "ZONE FUNDAMENTAL PLAN", "ZONE 4", "ZONE 5"]
  | "comprehensive" => some ["LINK 1", "LINK 2", "LINK 3", "LINK 4", "ZONE 2", "ZONE 3", "ZONE 4", "ZONE 5", "ZONE 6", "ZONE 7"]
  | _ => none

/-- `STATIC_FILTER_SCENARIOS` (part_001 lines 42-48): `"Reason:Tier"` key →
curated plan list, checked before the dynamic intersection logic. -/
def STATIC_FILTER_SCENARIOS : String → Option (List String)
  | "0:comprehensive" => some ["LINK 4", "LINK 3", "ZONE 7", "ZONE 6"]
  | "1:basic" => some ["LINK 2", "LINK 1", "ZONE 4", "ZONE FUNDAMENTAL PLAN"]
  | "1:comprehensive" => some ["LINK 4", "LINK 3", "LINK 1", "ZONE 4"]
  | "2:all" => some ["LINK 4", "LINK 3", "LINK 2", "ZONE 7", "ZONE 6", "ZONE 5", "ZONE FUNDAMENTAL PLAN", "ZONE 3", "ZONE 2"]
  | "2:comprehensive" => some ["LINK 4", "ZONE 7", "ZONE 3"]
  | _ => none

/-- The canonical filter state of the plan-card variant
(`getCurrentFilterState`'s result shape, part_001 lines 359-366):
two string fields, `"all"` being the "no constraint" sentinel. -/
structure FilterState where
  InsuranceReason : String
  CoverageTier : String
deriving DecidableEq, Repr

/-- `localData.X || 'all'` (part_001 lines 363-364): a missing key, a `null`
value or the empty string (all falsy in JS) normalize to `"all"`. -/
def resolveFilterField (v : Option JSValue) : String :=
  match v with
  | some (JSValue.str s) => if s = "" then "all" else s
  | some JSValue.null => "all"
  | none => "all"

/-- `getCurrentFilterState` (part_001 lines 359-366): read the two filter
fields from the stored `dpr_local_data` object. -/
def getCurrentFilterState (d : Store) : FilterState :=
  { InsuranceReason := resolveFilterField (d "InsuranceReason")
    CoverageTier := resolveFilterField (d "CoverageTier") }

/-- The `"InsuranceReason:CoverageTier"` lookup key (part_001 line 378). -/
def staticKey (fs : FilterState) : String :=
  fs.InsuranceReason ++ ":" ++ fs.CoverageTier

/-- `getFilteredPlans` (part_001 lines 374-402): static scenarios first, then
dynamic set logic; `none` is the "no filtering" sentinel (the JS `null`). -/
def getFilteredPlans (fs : FilterState) : Option (List String) :=
  match STATIC_FILTER_SCENARIOS (staticKey fs) with
  | some staticScenario => some staticScenario
  | none =>
    match INSURANCE_REASON_SETS fs.InsuranceReason, COVERAGE_TIER_SETS fs.CoverageTier with
    | none, none => none
    | none, some tierSet => some tierSet
    | some insuranceSet, none => some insuranceSet
    | some insuranceSet, some tierSet =>
        some (insuranceSet.filter (fun plan => tierSet.contains plan))

/-- A managed plan element (`[dpr-results-plan]:not([data-injected-plan])`):
its plan name (the `dpr-results-plan` attribute), its inline CSS `display`
value (`""` = CSS default / visible, `"none"` = hidden), and whether the
`hide` class is present (added/removed only by the comparison overlay). -/
structure PlanEl where
  name : String
  display : String
  hideCls : Bool
deriving DecidableEq, Repr

/-- Steps 2-4 of `applyPlanVisibilityAndOrder` (part_001 lines 483-549),
with the filtered-name computation (step 1) factored out as the `names`
argument. The managed elements are modelled as an ordered list (the DOM
order under their common parent); `remove` + `appendChild` reordering
becomes list reordering. The source's missing-parent early return is not
modelled: the parent exists whenever the element list is nonempty. -/
def applyVisibilityCore (filterStyle : String) (names : Option (List String))
    (els : List PlanEl) : List PlanEl :=
  if els.isEmpty then els
  else
    match names with
    | none =>
        -- no filtering: show all plans, keep existing DOM order
        els.map (fun e => { e with display := "" })
    | some filteredPlanNames =>
        let filteredElements := els.filter (fun e => filteredPlanNames.contains e.name)
        let otherElements := els.filter (fun e => !(filteredPlanNames.contains e.name))
        if filterStyle = "hideOnly" then
          -- preserve original DOM order, just hide non-matching
          els.map (fun e =>
            if filteredPlanNames.contains e.name then { e with display := "" }
            else { e with display := "none" })
        else
          if filterStyle = "limit" then
            filteredElements.map (fun e => { e with display := "" })
              ++ otherElements.map (fun e => { e with display := "none" })
          else
            -- showAll (default): all visible, filtered first
            (filteredElements ++ otherElements).map (fun e => { e with display := "" })

/-- `applyPlanVisibilityAndOrder` (part_001 lines 483-549): resolve the
filter state from storage, select, and render. -/
def applyPlanVisibilityAndOrder (filterStyle : String) (d : Store)
    (els : List PlanEl) : List PlanEl :=
  applyVisibilityCore filterStyle (getFilteredPlans (getCurrentFilterState d)) els

/-- The mutable state touched by the comparison overlay: the two filter
fields of `dpr_local_data` (`none` = key absent), the managed plan elements,
and the module-level `selectedPlans` / `isCompareActive` variables. -/
structure CompareState where
  reasonVal : Option JSValue
  tierVal : Option JSValue
  els : List PlanEl
  selectedPlans : List String
  isCompareActive : Bool
deriving DecidableEq, Repr

/-- The filter state the overlay's storage fields resolve to
(`getCurrentFilterState` restricted to the two modelled keys). -/
def compareFilterState (s : CompareState) : FilterState :=
  { InsuranceReason := resolveFilterField s.reasonVal
    CoverageTier := resolveFilterField s.tierVal }

/-- `activateComparison` (part_001 lines 652-689): bail out when nothing is
selected; otherwise `resetFiltersToAll` removes both filter fields from
storage (lines 408-426), non-selected plan columns get the `hide` class,
selected ones get `display = ''`, and `isCompareActive` is set. Button,
checkbox and form-control side effects are outside the modelled state. -/
def activateComparison (s : CompareState) : CompareState :=
  if s.selectedPlans.isEmpty then s
  else
    { s with
      reasonVal := none
      tierVal := none
      els := s.els.map (fun e =>
        if s.selectedPlans.contains e.name then { e with display := "" }
        else { e with hideCls := true })
      isCompareActive := true }

/-- `clearComparison` (part_001 lines 694-741): remove the `hide` class from
every plan column, clear the selection and the active flag, then re-run
`applyPlanVisibilityAndOrder` against the current storage state. -/
def clearComparison (filterStyle : String) (s : CompareState) : CompareState :=
  let s1 := { s with
    els := s.els.map (fun (e : PlanEl) => { e with hideCls := false })
    selectedPlans := []
    isCompareActive := false }
  { s1 with
    els := applyVisibilityCore filterStyle
      (getFilteredPlans (compareFilterState s1)) s1.els }

/-- `updateLocalStorage` (part_001 lines 94-104): `data[fieldName] = value`. -/
def updateLocalStorage (d : Store) (fieldName : String) (value : JSValue) : Store :=
  fun k => if k = fieldName then some value else d k

/-- `removeLocalStorageField` (part_001 lines 112-122): `delete data[fieldName]`. -/
def removeLocalStorageField (d : Store) (fieldName : String) : Store :=
  fun k => if k = fieldName then none else d k

/-- State of the form-sync handler: the `isSyncing` guard and the stored
`dpr_local_data` object. -/
structure SyncState where
  isSyncing : Bool
  storage : Store

/-- `syncFormFieldToStorage`, plan-card variant (part_001 lines 854-883).
`fieldValue` is the result of `getFieldValue` (a string or `null`);
`bodyThrows` models `getFieldValue` (or any later body step before the
storage write) raising an exception, in which case the `finally` block still
clears `isSyncing`. The DOM re-sync (`syncAllFieldsWithName`) and the
renderer re-run have no effect on the modelled state; re-entrant calls they
trigger return immediately because `isSyncing` is set. -/
def syncFormFieldToStorage (st : SyncState) (fieldName : String)
    (fieldValue : JSValue) (bodyThrows : Bool) : SyncState :=
  if st.isSyncing then st
  else
    if bodyThrows then { st with isSyncing := false }
    else
      let storage' :=
        if fieldValue = JSValue.str "all" then
          removeLocalStorageField st.storage fieldName
        else
          updateLocalStorage st.storage fieldName fieldValue
      { isSyncing := false, storage := storage' }

end PlanCard

namespace DprResults

/-! Embedding of src/dpr-results.js (results-page variant). -/

/-- The results-page filter state (`getCurrentFilterState`, dpr-results.js
lines 1119-1133): raw stored values, `none` = absent/undefined. Stored
values reaching these fields are strings.  The string-vs-string loose
comparisons (`CoverageTier == 'basic'`, `PreExisting == 'yes'`) are exact
string comparisons; the string-vs-number comparisons
(`InsuranceReason == 2/1/0`) go through the ECMAScript `ToNumber` string
coercion, modelled below by `toNumber` / `looseEqNum`. -/
structure FilterState where
  InsuranceReason : Option String
  CoverageTier : Option String
  PreExisting : Option String
  PreExistingCoverage : Option String
deriving DecidableEq, Repr

/-- Result of the ECMAScript `ToNumber` coercion of a string: `NaN`, an
infinity, or a (rational) numeric value. -/
inductive JSNumber where
  | nan : JSNumber
  | posInf : JSNumber
  | negInf : JSNumber
  | val : ℚ → JSNumber
deriving DecidableEq, Repr

/-- ECMAScript `StrWhiteSpaceChar`: WhiteSpace (TAB, VT, FF, SP, NBSP,
ZWNBSP and the Unicode space separators) or a LineTerminator. -/
def isJsWhite (c : Char) : Bool :=
  let n := c.toNat
  decide (n = 0x09 ∨ n = 0x0A ∨ n = 0x0B ∨ n = 0x0C ∨ n = 0x0D ∨ n = 0x20 ∨
    n = 0xA0 ∨ n = 0x1680 ∨ (0x2000 ≤ n ∧ n ≤ 0x200A) ∨ n = 0x2028 ∨
    n = 0x2029 ∨ n = 0x202F ∨ n = 0x205F ∨ n = 0x3000 ∨ n = 0xFEFF)

/-- Strip leading and trailing `StrWhiteSpace`. -/
def trimJsWhite (l : List Char) : List Char :=
  ((l.dropWhile isJsWhite).reverse.dropWhile isJsWhite).reverse

/-- Value of a nonempty run of decimal digits (`DecimalDigits`), `none` if
the run is empty or contains a non-digit. -/
def decDigitsVal (l : List Char) : Option Nat :=
  if l.isEmpty then none
  else if l.all (fun c => decide (48 ≤ c.toNat ∧ c.toNat ≤ 57)) then
    some (l.foldl (fun a c => 10 * a + (c.toNat - 48)) 0)
  else none

/-- Value of a single hexadecimal digit. -/
def hexDigitVal (c : Char) : Option Nat :=
  let n := c.toNat
  if 48 ≤ n ∧ n ≤ 57 then some (n - 48)
  else if 97 ≤ n ∧ n ≤ 102 then some (n - 87)
  else if 65 ≤ n ∧ n ≤ 70 then some (n - 55)
  else none

/-- Value of a nonempty digit run in the given radix (2, 8 or 16), for the
`NonDecimalIntegerLiteral` forms `0b`/`0o`/`0x`. -/
def radixDigitsVal (radix : Nat) (l : List Char) : Option Nat :=
  if l.isEmpty then none
  else
    l.foldl (fun acc c =>
      match acc, hexDigitVal c with
      | some a, some v => if v < radix then some (radix * a + v) else none
      | _, _ => none) (some 0)

/-- Split at the first exponent indicator `e`/`E`: mantissa and (when an
indicator is present) the remainder after it. -/
def splitAtExpChar : List Char → List Char × Option (List Char)
  | [] => ([], none)
  | c :: rest =>
      if c = 'e' ∨ c = 'E' then ([], some rest)
      else
        let (m, e) := splitAtExpChar rest
        (c :: m, e)

/-- Split at the first `.`: integer part and (when a dot is present) the
remainder after it. -/
def splitAtDot : List Char → List Char × Option (List Char)
  | [] => ([], none)
  | c :: rest =>
      if c = '.' then ([], some rest)
      else
        let (m, e) := splitAtDot rest
        (c :: m, e)

/-- ECMAScript `SignedInteger`: optional sign followed by `DecimalDigits`. -/
def parseSignedInteger (l : List Char) : Option Int :=
  match l with
  | '+' :: rest => (decDigitsVal rest).map Int.ofNat
  | '-' :: rest => (decDigitsVal rest).map (fun v => -(v : Int))
  | _ => (decDigitsVal l).map Int.ofNat

/-- ECMAScript `StrUnsignedDecimalLiteral`: `Infinity`, or decimal digits
with an optional fraction and an optional exponent (`1`, `1.`, `.5`,
`1.5e-2`, ...); `none` when the text does not match the grammar (NaN). -/
def parseUnsignedDecimal (l : List Char) : Option JSNumber :=
  if l = "Infinity".toList then some JSNumber.posInf
  else
    let (mant, expTail) := splitAtExpChar l
    match (match expTail with
           | none => some (0 : Int)
           | some el => parseSignedInteger el) with
    | none => none
    | some e =>
      let (ip, fracTail) := splitAtDot mant
      let mantissa : Option (Nat × Nat × Nat) :=
        match fracTail with
        | none => (decDigitsVal ip).map (fun v => (v, 0, 0))
        | some fp =>
          if ip.isEmpty then (decDigitsVal fp).map (fun v => (0, v, fp.length))
          else
            match decDigitsVal ip with
            | none => none
            | some iv =>
              if fp.isEmpty then some (iv, 0, 0)
              else (decDigitsVal fp).map (fun v => (iv, v, fp.length))
      match mantissa with
      | none => none
      | some (iv, fv, fl) =>
        let num : Int := (iv * 10 ^ fl + fv : Nat)
        if 0 ≤ e then
          some (JSNumber.val (mkRat (num * 10 ^ e.toNat) (10 ^ fl)))
        else
          some (JSNumber.val (mkRat num (10 ^ fl * 10 ^ (-e).toNat)))

/-- Negation of a coerced number (for a leading `-`). -/
def jsNeg : JSNumber → JSNumber
  | JSNumber.nan => JSNumber.nan
  | JSNumber.posInf => JSNumber.negInf
  | JSNumber.negInf => JSNumber.posInf
  | JSNumber.val q => JSNumber.val (-q)

/-- ECMAScript `StrDecimalLiteral`: an optionally signed unsigned decimal. -/
def parseStrDecimal (l : List Char) : Option JSNumber :=
  match l with
  | '+' :: rest => parseUnsignedDecimal rest
  | '-' :: rest => (parseUnsignedDecimal rest).map jsNeg
  | _ => parseUnsignedDecimal l

/-- ECMAScript `NonDecimalIntegerLiteral`: `0b`/`0o`/`0x` digit runs
(unsigned only). -/
def parseNonDecimal (l : List Char) : Option JSNumber :=
  match l with
  | '0' :: c :: rest =>
      if c = 'x' ∨ c = 'X' then (radixDigitsVal 16 rest).map (fun v => JSNumber.val v)
      else if c = 'o' ∨ c = 'O' then (radixDigitsVal 8 rest).map (fun v => JSNumber.val v)
      else if c = 'b' ∨ c = 'B' then (radixDigitsVal 2 rest).map (fun v => JSNumber.val v)
      else none
  | _ => none

/-- ECMAScript `ToNumber` applied to a string: trim `StrWhiteSpace`, empty
means `+0`, otherwise parse a `StrNumericLiteral`; anything else is NaN. -/
def toNumber (s : String) : JSNumber :=
  let l := trimJsWhite s.toList
  if l.isEmpty then JSNumber.val 0
  else
    match parseNonDecimal l with
    | some v => v
    | none =>
      match parseStrDecimal l with
      | some v => v
      | none => JSNumber.nan

/-- The JS loose comparison `storedValue == n` between a stored field value
(a string, or `undefined` when absent) and a number literal `n`: the string
is coerced with `ToNumber` and compared; `undefined == n` and NaN
comparisons are false. -/
def looseEqNum (v : Option String) (n : Int) : Bool :=
  match v with
  | none => false
  | some s =>
    match toNumber s with
    | JSNumber.val q => decide (q = (n : ℚ))
    | _ => false

/-- `determineTopThreePlans` (dpr-results.js lines 1036-1096): the fully
enumerated decision tree. The `InsuranceReason == 2/1/0` tests are JS loose
comparisons with number literals (modelled by `looseEqNum`, so non-canonical
numeric strings such as `"02"` or `" 2"` also match); the tier and
pre-existing tests are string-vs-string comparisons.  A reason-matched block
whose tier matches neither `'basic'` nor `'comprehensive'` falls through to
the final `[]` fallback. -/
def determineTopThreePlans (fs : FilterState) : List String :=
  if looseEqNum fs.InsuranceReason 2 = true ∧ fs.CoverageTier = some "basic" then
    ["ZONE 2", "ZONE 3", "ZONE FUNDAMENTAL PLAN"]
  else if looseEqNum fs.InsuranceReason 2 = true ∧ fs.CoverageTier = some "comprehensive" then
    ["ZONE 3", "ZONE 2", "LINK 4"]
  else if looseEqNum fs.InsuranceReason 1 = true ∧ fs.CoverageTier = some "basic" then
    if fs.PreExisting = some "yes" ∧ fs.PreExistingCoverage = some "yes" then
      ["LINK 1", "LINK 2", "ZONE FUNDAMENTAL PLAN"]
    else
      ["ZONE 4", "LINK 1", "LINK 2"]
  else if looseEqNum fs.InsuranceReason 1 = true ∧ fs.CoverageTier = some "comprehensive" then
    if fs.PreExisting = some "yes" ∧ fs.PreExistingCoverage = some "yes" then
      ["LINK 1", "LINK 4", "LINK 3"]
    else
      ["ZONE 4", "LINK 1", "ZONE 5"]
  else if looseEqNum fs.InsuranceReason 0 = true ∧ fs.CoverageTier = some "basic" then
    if fs.PreExisting = some "yes" ∧ fs.PreExistingCoverage = some "yes" then
      ["LINK 2", "LINK 3", "ZONE FUNDAMENTAL PLAN"]
    else if fs.PreExisting = some "no" then
      ["ZONE 5", "LINK 2", "LINK 3"]
    else
      ["ZONE 5", "LINK 3", "LINK 2"]
  else if looseEqNum fs.InsuranceReason 0 = true ∧ fs.CoverageTier = some "comprehensive" then
    if fs.PreExisting = some "yes" ∧ fs.PreExistingCoverage = some "yes" then
      ["LINK 4", "LINK 3", "LINK 2"]
    else if fs.PreExisting = some "no" then
      ["ZONE 7", "ZONE 6", "ZONE 5"]
    else
      ["ZONE 7", "ZONE 6", "LINK 4"]
  else
    -- fallback: unknown filter combination, logged as a warning
    []

/-- One entry of the API's `PlanQuotes`; `Recommendation` is `none` when the
field is absent (JS `undefined`, for which `>= 1` is false). -/
structure PlanQuote where
  PlanName : String
  Recommendation : Option Int
deriving DecidableEq, Repr

/-- Whether a plan passes the `plan.Recommendation >= 1 && <= 3` filter. -/
def isRecommended (q : PlanQuote) : Bool :=
  match q.Recommendation with
  | some r => decide (1 ≤ r ∧ r ≤ 3)
  | none => false

/-- Stable insertion into a rank-sorted list (ascending; an element with an
equal rank stays after the earlier ones), used to model the stable
`Array.prototype.sort` with comparator `a.Recommendation - b.Recommendation`. -/
def insertByRank (q : PlanQuote) : List PlanQuote → List PlanQuote
  | [] => [q]
  | r :: rs =>
      if q.Recommendation.getD 0 ≤ r.Recommendation.getD 0 then q :: r :: rs
      else r :: insertByRank q rs

/-- Stable ascending sort by recommendation rank. -/
def sortByRank : List PlanQuote → List PlanQuote
  | [] => []
  | q :: qs => insertByRank q (sortByRank qs)

/-- `getTopPlansFromRecommendation` (dpr-results.js lines 1103-1113):
filter to ranks 1..3, stable-sort ascending by rank, map to names. -/
def getTopPlansFromRecommendation (planQuotes : List PlanQuote) : List String :=
  (sortByRank (planQuotes.filter isRecommended)).map (fun q => q.PlanName)

/-- Step 2 of `applyPlanVisibilityAndOrder` (dpr-results.js lines 1143-1167):
the top-three selection, with its fallback from the API recommendation order
to the filter-based decision tree when no plan has a rank in 1..3. -/
def selectTopThree (sortByRecommendation useRecommendation : Bool)
    (planQuotes : List PlanQuote) (fs : FilterState) : List String :=
  if sortByRecommendation ∧ useRecommendation then
    let topThreePlans := getTopPlansFromRecommendation planQuotes
    if topThreePlans.isEmpty then determineTopThreePlans fs else topThreePlans
  else
    determineTopThreePlans fs

/-- `updateSessionStorage` (dpr-results.js lines 111-121): same shape as
`updateLocalStorage`, against the session-scoped store. -/
def updateSessionStorage (d : Store) (fieldName : String) (value : JSValue) : Store :=
  fun k => if k = fieldName then some value else d k

/-- State of the results-page form-sync handler: the `isSyncing` guard and
the two stores (`dpr_local_data` in localStorage, session-only fields in
sessionStorage). -/
structure SyncState where
  isSyncing : Bool
  localStore : Store
  sessionStore : Store

/-- `syncFormFieldToStorage`, results-page variant (dpr-results.js lines
419-452): guard check-and-set, write to the session or local store
(no `'all'` special case in this variant), `finally` clears the guard.
`bodyThrows` models an exception raised in the body before the write. -/
def syncFormFieldToStorage (sessionOnlyFields : List String) (st : SyncState)
    (fieldName : String) (fieldValue : JSValue) (bodyThrows : Bool) : SyncState :=
  if st.isSyncing then st
  else
    if bodyThrows then { st with isSyncing := false }
    else
      if sessionOnlyFields.contains fieldName then
        { st with
          sessionStore := updateSessionStorage st.sessionStore fieldName fieldValue
          isSyncing := false }
      else
        { st with
          localStore := PlanCard.updateLocalStorage st.localStore fieldName fieldValue
          isSyncing := false }

end DprResults

/-! ## Helper lemmas -/

/-- Clearing the `hide` class is a no-op on elements that do not carry it. -/
theorem map_clearHide_of_clean (els : List PlanCard.PlanEl)
    (h : ∀ e ∈ els, e.hideCls = false) :
    els.map (fun (e : PlanCard.PlanEl) => { e with hideCls := false }) = els := by
  induction els with
  | nil => rfl
  | cons e t ih =>
    have he : e.hideCls = false := h e (by simp)
    have ht : t.map (fun (e : PlanCard.PlanEl) => { e with hideCls := false }) = t :=
      ih (fun x hx => h x (by simp [hx]))
    cases e
    simp_all

/-- With the "no filtering" sentinel, the renderer resets every display to
the CSS default and keeps the element order. -/
theorem applyVisibilityCore_none (filterStyle : String) (els : List PlanCard.PlanEl) :
    PlanCard.applyVisibilityCore filterStyle none els =
      els.map (fun e => { e with display := "" }) := by
  cases els <;> rfl

/-- Sanity check of the `ToNumber` modelling on non-canonical numeric
strings: as in JS, `"02"`, `" 2"`, `"2.0"`, `"2e0"` and `"0x2"` are loosely
equal to the number 2 and therefore take the reason-2 branch of the decision
tree, and the empty string coerces to 0. -/
theorem determineTopThreePlans_noncanonical_reason :
    DprResults.determineTopThreePlans ⟨some "02", some "basic", none, none⟩ =
      ["ZONE 2", "ZONE 3", "ZONE FUNDAMENTAL PLAN"] ∧
    DprResults.determineTopThreePlans ⟨some " 2", some "basic", none, none⟩ =
      ["ZONE 2", "ZONE 3", "ZONE FUNDAMENTAL PLAN"] ∧
    DprResults.determineTopThreePlans ⟨some "2.0", some "basic", none, none⟩ =
      ["ZONE 2", "ZONE 3", "ZONE FUNDAMENTAL PLAN"] ∧
    DprResults.determineTopThreePlans ⟨some "2e0", some "basic", none, none⟩ =
      ["ZONE 2", "ZONE 3", "ZONE FUNDAMENTAL PLAN"] ∧
    DprResults.determineTopThreePlans ⟨some "0x2", some "basic", none, none⟩ =
      ["ZONE 2", "ZONE 3", "ZONE FUNDAMENTAL PLAN"] ∧
    DprResults.looseEqNum (some "") 0 = true ∧
    DprResults.looseEqNum (some "banana") 2 = false := by
  decide

/-! ## Claims -/

/-- C1, counterexample: with both filters constrained to reason `0` and tier
`"comprehensive"`, the selector does NOT return the intersection of the
reason-eligibility and tier-eligibility sets — the static scenario
`0:comprehensive` overrides it. -/
theorem c1_intersection_counterexample :
    PlanCard.getFilteredPlans ⟨"0", "comprehensive"⟩ ≠
      (PlanCard.INSURANCE_REASON_SETS "0").bind (fun reasonSet =>
        (PlanCard.COVERAGE_TIER_SETS "comprehensive").map (fun tierSet =>
          reasonSet.filter (fun plan => tierSet.contains plan))) := by
  decide

/-- C1, amended: for any reason `R` and tier `T` both constrained (both
lookup tables recognize them) such that `(R, T)` is NOT a key of the
static-scenario table, the selector returns exactly the intersection
`reasonSet(R) ∩ tierSet(T)`, in `reasonSet(R)`'s element order. -/
theorem c1_intersection_amended (R T : String) (reasonSet tierSet : List String)
    (hR : PlanCard.INSURANCE_REASON_SETS R = some reasonSet)
    (hT : PlanCard.COVERAGE_TIER_SETS T = some tierSet)
    (hstatic : PlanCard.STATIC_FILTER_SCENARIOS (R ++ ":" ++ T) = none) :
    PlanCard.getFilteredPlans ⟨R, T⟩ =
      some (reasonSet.filter (fun plan => tierSet.contains plan)) := by
  simp [PlanCard.getFilteredPlans, PlanCard.staticKey, hstatic, hR, hT]

/-- C1, witness: the amended law evaluated at reason `0`, tier `"basic"`
(a constrained pair outside the static table). -/
theorem c1_intersection_witness :
    PlanCard.getFilteredPlans ⟨"0", "basic"⟩ =
      some (["LINK 2", "LINK 3", "LINK 4", "ZONE FUNDAMENTAL PLAN", "ZONE 5", "ZONE 6",
        "ZONE 7"].filter (fun plan =>
          (["LINK 1", "LINK 2", "LINK 3", "ZONE 2", "ZONE 3", "ZONE FUNDAMENTAL PLAN",
            "ZONE 4", "ZONE 5"] : List String).contains plan)) :=
  c1_intersection_amended "0" "basic" _ _ rfl rfl rfl

/-- C2, counterexample: start from filter state `(reason 1, tier basic)` in
storage with managed plans `[ZONE 7, LINK 1]`, select `LINK 1`, activate
comparison, then clear it.  Under `filterStyle = "limit"` the result differs
from what a plain render of the activation-time filter state produces
(order `[LINK 1, ZONE 7]` with `ZONE 7` hidden): activation reset the
filters to `all`, so clearing renders `[ZONE 7, LINK 1]` all visible. -/
theorem c2_comparison_roundtrip_counterexample :
    (PlanCard.clearComparison "limit" (PlanCard.activateComparison
        ⟨some (JSValue.str "1"), some (JSValue.str "basic"),
         [⟨"ZONE 7", "", false⟩, ⟨"LINK 1", "", false⟩], ["LINK 1"], false⟩)).els ≠
      PlanCard.applyVisibilityCore "limit"
        (PlanCard.getFilteredPlans (PlanCard.compareFilterState
          ⟨some (JSValue.str "1"), some (JSValue.str "basic"),
           [⟨"ZONE 7", "", false⟩, ⟨"LINK 1", "", false⟩], ["LINK 1"], false⟩))
        [⟨"ZONE 7", "", false⟩, ⟨"LINK 1", "", false⟩] := by
  decide

/-- C2, amended: activating comparison hides (via the `hide` class) every
managed plan element not in the selection and shows the selected ones;
clearing comparison then restores exactly the visibility and order that a
plain render of the CURRENT filter state — the post-activation state, which
is all-`"all"` because `activateComparison` resets the filters — produces on
the pre-comparison element list.  (It is not the activation-time filter
state: that is the content of the counterexample.) -/
theorem c2_comparison_roundtrip_amended (filterStyle : String)
    (s : PlanCard.CompareState) (hclean : ∀ e ∈ s.els, e.hideCls = false) :
    (s.selectedPlans.isEmpty = false →
      ∀ e ∈ (PlanCard.activateComparison s).els,
        (s.selectedPlans.contains e.name = false → e.hideCls = true) ∧
        (s.selectedPlans.contains e.name = true → e.display = "" ∧ e.hideCls = false)) ∧
    (PlanCard.clearComparison filterStyle (PlanCard.activateComparison s)).els =
      PlanCard.applyVisibilityCore filterStyle
        (PlanCard.getFilteredPlans
          (PlanCard.compareFilterState (PlanCard.activateComparison s))) s.els := by
  constructor
  · intro hne e he
    simp only [PlanCard.activateComparison, hne, Bool.false_eq_true, if_false,
      List.mem_map] at he
    obtain ⟨e0, he0, rfl⟩ := he
    by_cases hcm : e0.name ∈ s.selectedPlans <;>
      simp [hcm, hclean e0 he0]
  · have hnone : PlanCard.getFilteredPlans ⟨"all", "all"⟩ = none := rfl
    by_cases hsel : s.selectedPlans.isEmpty
    · have ha : PlanCard.activateComparison s = s := by
        simp [PlanCard.activateComparison, hsel]
      rw [ha]
      simp only [PlanCard.clearComparison]
      rw [map_clearHide_of_clean s.els hclean]
      rfl
    · have hsel' : s.selectedPlans.isEmpty = false := by
        simpa using hsel
      simp only [PlanCard.activateComparison, hsel', Bool.false_eq_true, if_false,
        PlanCard.clearComparison, PlanCard.compareFilterState, PlanCard.resolveFilterField]
      rw [hnone, applyVisibilityCore_none, applyVisibilityCore_none, List.map_map,
        List.map_map]
      apply List.map_congr_left
      intro e he
      obtain ⟨n, dsp, hcl⟩ := e
      have : hcl = false := hclean ⟨n, dsp, hcl⟩ he
      subst this
      simp [Function.comp]
      split <;> rfl

/-- C2, witness: the amended round-trip evaluated on the counterexample's
starting state — clearing renders exactly what the post-activation (reset)
filter state renders. -/
theorem c2_comparison_roundtrip_witness :
    (PlanCard.clearComparison "limit" (PlanCard.activateComparison
        ⟨some (JSValue.str "1"), some (JSValue.str "basic"),
         [⟨"ZONE 7", "", false⟩, ⟨"LINK 1", "", false⟩], ["LINK 1"], false⟩)).els =
      PlanCard.applyVisibilityCore "limit"
        (PlanCard.getFilteredPlans (PlanCard.compareFilterState (PlanCard.activateComparison
          ⟨some (JSValue.str "1"), some (JSValue.str "basic"),
           [⟨"ZONE 7", "", false⟩, ⟨"LINK 1", "", false⟩], ["LINK 1"], false⟩)))
        [⟨"ZONE 7", "", false⟩, ⟨"LINK 1", "", false⟩] :=
  (c2_comparison_roundtrip_amended "limit"
    ⟨some (JSValue.str "1"), some (JSValue.str "basic"),
     [⟨"ZONE 7", "", false⟩, ⟨"LINK 1", "", false⟩], ["LINK 1"], false⟩ (by decide)).2

/-- C3: whenever the resolved `(InsuranceReason, CoverageTier)` pair hits the
static-scenario table, `getFilteredPlans` returns exactly the table's list,
and the result is independent of every other stored field (in particular
`PreExisting` and `PreExistingCoverage`): any two stores agreeing on the two
filter keys select identically. -/
theorem c3_static_scenarios (d1 d2 : Store) (l : List String)
    (hR : d1 "InsuranceReason" = d2 "InsuranceReason")
    (hT : d1 "CoverageTier" = d2 "CoverageTier")
    (hs : PlanCard.STATIC_FILTER_SCENARIOS
      (PlanCard.staticKey (PlanCard.getCurrentFilterState d1)) = some l) :
    PlanCard.getFilteredPlans (PlanCard.getCurrentFilterState d1) = some l ∧
    PlanCard.getFilteredPlans (PlanCard.getCurrentFilterState d2) = some l := by
  have hfs : PlanCard.getCurrentFilterState d2 = PlanCard.getCurrentFilterState d1 := by
    simp [PlanCard.getCurrentFilterState, hR, hT]
  refine ⟨?_, ?_⟩
  · simp [PlanCard.getFilteredPlans, hs]
  · rw [hfs]
    simp [PlanCard.getFilteredPlans, hs]

/-- C3, witness: two stores that differ only in `PreExisting`
(`"yes"` vs `"no"`), both resolving to the static key `1:basic`. -/
theorem c3_static_scenarios_witness :
    PlanCard.getFilteredPlans (PlanCard.getCurrentFilterState (fun k =>
        if k = "InsuranceReason" then some (JSValue.str "1")
        else if k = "CoverageTier" then some (JSValue.str "basic")
        else if k = "PreExisting" then some (JSValue.str "yes") else none)) =
      some ["LINK 2", "LINK 1", "ZONE 4", "ZONE FUNDAMENTAL PLAN"] ∧
    PlanCard.getFilteredPlans (PlanCard.getCurrentFilterState (fun k =>
        if k = "InsuranceReason" then some (JSValue.str "1")
        else if k = "CoverageTier" then some (JSValue.str "basic")
        else if k = "PreExisting" then some (JSValue.str "no") else none)) =
      some ["LINK 2", "LINK 1", "ZONE 4", "ZONE FUNDAMENTAL PLAN"] :=
  c3_static_scenarios
    (fun k =>
      if k = "InsuranceReason" then some (JSValue.str "1")
      else if k = "CoverageTier" then some (JSValue.str "basic")
      else if k = "PreExisting" then some (JSValue.str "yes") else none)
    (fun k =>
      if k = "InsuranceReason" then some (JSValue.str "1")
      else if k = "CoverageTier" then some (JSValue.str "basic")
      else if k = "PreExisting" then some (JSValue.str "no") else none)
    ["LINK 2", "LINK 1", "ZONE 4", "ZONE FUNDAMENTAL PLAN"] rfl rfl rfl

/-- C4: with both filter fields at the "no constraint" sentinel (`"all"`,
which is also what an absent or `null` stored value resolves to), the
selector returns the "no filtering" sentinel `none`, and the renderer — in
every display mode — makes every managed plan element visible (CSS-default
display) while leaving the element order unchanged. -/
theorem c4_all_sentinel_no_filtering :
    PlanCard.resolveFilterField none = "all" ∧
    PlanCard.resolveFilterField (some JSValue.null) = "all" ∧
    PlanCard.getFilteredPlans ⟨"all", "all"⟩ = none ∧
    ∀ (filterStyle : String) (els : List PlanCard.PlanEl),
      PlanCard.applyVisibilityCore filterStyle
          (PlanCard.getFilteredPlans ⟨"all", "all"⟩) els =
        els.map (fun e => { e with display := "" }) :=
  ⟨rfl, rfl, rfl, fun filterStyle els => by
    rw [show PlanCard.getFilteredPlans ⟨"all", "all"⟩ = none from rfl,
      applyVisibilityCore_none]⟩

/-- C5, counterexample: with `sortByRecommendation` enabled and every rank 0
or absent, selection does fall back to the filter-based tree, but with an
out-of-domain filter state (all fields absent) the fallback itself is the
EMPTY list — so "never yields an empty top-3 list" fails as stated. -/
theorem c5_recommendation_fallback_counterexample :
    DprResults.getTopPlansFromRecommendation
        [⟨"LINK 1", some 0⟩, ⟨"ZONE 2", none⟩] = [] ∧
    DprResults.selectTopThree true true
        [⟨"LINK 1", some 0⟩, ⟨"ZONE 2", none⟩] ⟨none, none, none, none⟩ = [] := by
  exact ⟨rfl, rfl⟩

/-- C5, amended: when every rank is 0 or absent, selection with
`sortByRecommendation = true` falls back to `determineTopThreePlans`, and
for every filter state in the decision tree's domain (reason in
`{0, 1, 2}`, tier in `{basic, comprehensive}`) the resulting top-3 list has
length 3 — in particular it is never empty.  (For out-of-domain filter
states the fallback is empty: that is the content of the counterexample.) -/
theorem c5_recommendation_fallback_amended (planQuotes : List DprResults.PlanQuote)
    (fs : DprResults.FilterState)
    (hranks : ∀ q ∈ planQuotes, q.Recommendation = some 0 ∨ q.Recommendation = none)
    (hR : fs.InsuranceReason = some "0" ∨ fs.InsuranceReason = some "1" ∨
      fs.InsuranceReason = some "2")
    (hT : fs.CoverageTier = some "basic" ∨ fs.CoverageTier = some "comprehensive") :
    DprResults.selectTopThree true true planQuotes fs =
      DprResults.determineTopThreePlans fs ∧
    (DprResults.determineTopThreePlans fs).length = 3 := by
  have hfilter : planQuotes.filter DprResults.isRecommended = [] := by
    rw [List.filter_eq_nil_iff]
    intro q hq
    rcases hranks q hq with h | h <;> simp [DprResults.isRecommended, h]
  have htop : DprResults.getTopPlansFromRecommendation planQuotes = [] := by
    simp [DprResults.getTopPlansFromRecommendation, hfilter, DprResults.sortByRank]
  constructor
  · simp [DprResults.selectTopThree, htop]
  · rcases hR with h | h | h <;> rcases hT with h' | h' <;>
      by_cases hpe : fs.PreExisting = some "yes" ∧ fs.PreExistingCoverage = some "yes" <;>
      by_cases hpn : fs.PreExisting = some "no" <;>
      simp [DprResults.determineTopThreePlans, h, h', hpe, hpn] <;>
      decide

/-- C5, witness: all ranks 0, valid filter state `(0, basic, no, -)` — the
fallback is the tree's answer and has length 3. -/
theorem c5_recommendation_fallback_witness :
    DprResults.selectTopThree true true [⟨"LINK 1", some 0⟩]
        ⟨some "0", some "basic", some "no", none⟩ =
      DprResults.determineTopThreePlans ⟨some "0", some "basic", some "no", none⟩ ∧
    (DprResults.determineTopThreePlans
      ⟨some "0", some "basic", some "no", none⟩).length = 3 :=
  c5_recommendation_fallback_amended [⟨"LINK 1", some 0⟩]
    ⟨some "0", some "basic", some "no", none⟩ (by decide) (by decide) (by decide)

/-- C6: in `hideOnly` mode with included-set `{LINK 1, LINK 2}` over the DOM
`[LINK1, ZONE2, LINK2]`, the order is unchanged, ZONE 2 is hidden, and
LINK 1 / LINK 2 are shown (no reordering in this mode). -/
theorem c6_hideOnly_scenario (d1 d2 d3 : String) (h1 h2 h3 : Bool) :
    PlanCard.applyVisibilityCore "hideOnly" (some ["LINK 1", "LINK 2"])
        [⟨"LINK 1", d1, h1⟩, ⟨"ZONE 2", d2, h2⟩, ⟨"LINK 2", d3, h3⟩] =
      [⟨"LINK 1", "", h1⟩, ⟨"ZONE 2", "none", h2⟩, ⟨"LINK 2", "", h3⟩] := by
  rfl

/-- C7: in `limit` mode with the same included-set and DOM, the elements are
reordered to `[LINK1, LINK2, ZONE2]` (included first, stable), ZONE 2 is
hidden, LINK 1 / LINK 2 shown. -/
theorem c7_limit_scenario (d1 d2 d3 : String) (h1 h2 h3 : Bool) :
    PlanCard.applyVisibilityCore "limit" (some ["LINK 1", "LINK 2"])
        [⟨"LINK 1", d1, h1⟩, ⟨"ZONE 2", d2, h2⟩, ⟨"LINK 2", d3, h3⟩] =
      [⟨"LINK 1", "", h1⟩, ⟨"LINK 2", "", h3⟩, ⟨"ZONE 2", "none", h2⟩] := by
  rfl

/-- C9: in both variants of `syncFormFieldToStorage`, the `isSyncing` guard
is checked and set on entry and is false again when an invocation that
entered with the guard clear completes — including when the body raises an
exception (the `finally` release) — and a re-entrant invocation made while
the guard is set changes nothing (no storage writes). -/
theorem c9_reentrancy_guard (stP : PlanCard.SyncState) (stD : DprResults.SyncState)
    (sessionOnlyFields : List String) (fieldName : String) (fieldValue : JSValue)
    (bodyThrows : Bool) :
    (stP.isSyncing = false →
      (PlanCard.syncFormFieldToStorage stP fieldName fieldValue bodyThrows).isSyncing
        = false) ∧
    (stP.isSyncing = true →
      PlanCard.syncFormFieldToStorage stP fieldName fieldValue bodyThrows = stP) ∧
    (stD.isSyncing = false →
      (DprResults.syncFormFieldToStorage sessionOnlyFields stD fieldName fieldValue
        bodyThrows).isSyncing = false) ∧
    (stD.isSyncing = true →
      DprResults.syncFormFieldToStorage sessionOnlyFields stD fieldName fieldValue
        bodyThrows = stD) := by
  refine ⟨?_, ?_, ?_, ?_⟩ <;> intro h <;>
    simp only [PlanCard.syncFormFieldToStorage, DprResults.syncFormFieldToStorage, h,
      Bool.false_eq_true, if_false, if_true] <;>
    (try split) <;> (try split) <;> rfl

/-- C9, witness: a re-entrant call (guard already set) is the identity, and
a call whose body throws still ends with the guard clear. -/
theorem c9_reentrancy_guard_witness :
    PlanCard.syncFormFieldToStorage ⟨true, fun _ => none⟩ "plans" JSValue.null false =
      ⟨true, fun _ => none⟩ ∧
    (DprResults.syncFormFieldToStorage [] ⟨false, fun _ => none, fun _ => none⟩ "plans"
      JSValue.null true).isSyncing = false :=
  ⟨(c9_reentrancy_guard ⟨true, fun _ => none⟩ ⟨false, fun _ => none, fun _ => none⟩ []
      "plans" JSValue.null false).2.1 rfl,
   (c9_reentrancy_guard ⟨true, fun _ => none⟩ ⟨false, fun _ => none, fun _ => none⟩ []
      "plans" JSValue.null true).2.2.1 rfl⟩

/-- C10: the plan-card sync handler keeps the invariant that `dpr_local_data`
never maps a field to the literal string `"all"`: any run preserves the
invariant, and a completed (non-re-entrant, non-throwing) run deletes the
field's key when the new value is `"all"` and maps it to exactly the new
value otherwise. -/
theorem c10_storage_never_all (st : PlanCard.SyncState) (fieldName : String)
    (fieldValue : JSValue) (bodyThrows : Bool)
    (hinv : ∀ k, st.storage k ≠ some (JSValue.str "all")) :
    (∀ k, (PlanCard.syncFormFieldToStorage st fieldName fieldValue bodyThrows).storage k
        ≠ some (JSValue.str "all")) ∧
    (st.isSyncing = false → bodyThrows = false →
      ((fieldValue = JSValue.str "all" →
        (PlanCard.syncFormFieldToStorage st fieldName fieldValue bodyThrows).storage
          fieldName = none) ∧
       (fieldValue ≠ JSValue.str "all" →
        (PlanCard.syncFormFieldToStorage st fieldName fieldValue bodyThrows).storage
          fieldName = some fieldValue))) := by
  constructor
  · intro k
    by_cases hg : st.isSyncing <;>
      by_cases hb : bodyThrows <;>
      by_cases hv : fieldValue = JSValue.str "all" <;>
      by_cases hk : k = fieldName <;>
      simp [PlanCard.syncFormFieldToStorage, PlanCard.removeLocalStorageField,
        PlanCard.updateLocalStorage, hg, hb, hv, hk, hinv k, hinv fieldName]
  · intro hg hb
    constructor
    · intro hv
      simp [PlanCard.syncFormFieldToStorage, PlanCard.removeLocalStorageField, hg, hb, hv]
    · intro hv
      simp [PlanCard.syncFormFieldToStorage, PlanCard.updateLocalStorage, hg, hb, hv]

/-- C10, witness: starting from an empty store (which trivially satisfies
the invariant), syncing `CoverageTier := "all"` leaves the key absent, and
no key maps to `"all"` afterwards. -/
theorem c10_storage_never_all_witness :
    (PlanCard.syncFormFieldToStorage ⟨false, fun _ => none⟩ "CoverageTier"
      (JSValue.str "all") false).storage "CoverageTier" = none ∧
    (PlanCard.syncFormFieldToStorage ⟨false, fun _ => none⟩ "CoverageTier"
      (JSValue.str "all") false).storage "InsuranceReason" ≠ some (JSValue.str "all") :=
  ⟨((c10_storage_never_all ⟨false, fun _ => none⟩ "CoverageTier" (JSValue.str "all") false
      (fun k => by simp)).2 rfl rfl).1 rfl,
   (c10_storage_never_all ⟨false, fun _ => none⟩ "CoverageTier" (JSValue.str "all") false
      (fun k => by simp)).1 "InsuranceReason"⟩
